import Mathlib

/-!
Verification of the adaptation-mission query tool.

This file gives a shallow embedding of the core of the repository
(`app.py` and `load_data.py`) and proves properties of it.  Python
strings are modelled as Lean `String`s (lists of characters); the three
network/database collaborators (the reasoning service, the SQLite store,
and the diagnostic store) are modelled as explicit inputs carrying
either the data they would return or the message of the exception they
would raise, so that every code path of the embedded functions is a
total Lean function of those inputs.
-/

namespace AdaptQuery

/-! ### Python string primitives -/

/-- The whitespace characters stripped by Python `str.strip()`
(the ASCII ones, which are the only ones that occur in this program). -/
def isPySpace (c : Char) : Bool :=
  c == ' ' || c == '\t' || c == '\n' || c == '\r' || c == '\x0b' || c == '\x0c'

/-- Python `str.upper()` on a single character: ASCII lowercase letters
are shifted to the corresponding uppercase letter, everything else is
left unchanged (the action on non-ASCII letters is not needed here). -/
def upperChar (c : Char) : Char :=
  if 97 ≤ c.toNat ∧ c.toNat ≤ 122 then Char.ofNat (c.toNat - 32) else c

/-- Python `s.upper()`. -/
def pyUpper (s : String) : String := ⟨s.data.map upperChar⟩

/-- Does the pattern occur at the very start of the list? -/
def leadsWith : List Char → List Char → Bool
  | [], _ => true
  | _ :: _, [] => false
  | p :: ps, c :: cs => p == c && leadsWith ps cs

/-- Python substring test (`needle in haystack`), on character lists. -/
def containsSub (pat : List Char) : List Char → Bool
  | [] => leadsWith pat []
  | c :: cs => leadsWith pat (c :: cs) || containsSub pat cs

/-- Python `needle in haystack` on strings. -/
def pyIn (needle hay : String) : Bool := containsSub needle.data hay.data

/-- Python `s.replace(old, "")` for a non-empty `old`: scan left to
right and drop every non-overlapping occurrence of the pattern. -/
def removeAllChars (pat : List Char) : List Char → List Char
  | [] => []
  | c :: cs =>
    if leadsWith pat (c :: cs) then removeAllChars pat (cs.drop (pat.length - 1))
    else c :: removeAllChars pat cs
termination_by l => l.length
decreasing_by
  all_goals simp [List.length_drop]
  all_goals omega

/-- Python `s.replace(old, "")` on strings. -/
def pyRemove (old s : String) : String := ⟨removeAllChars old.data s.data⟩

/-- Python `s.strip()` on character lists: drop leading and trailing
whitespace. -/
def pyStripChars (l : List Char) : List Char :=
  ((l.dropWhile isPySpace).reverse.dropWhile isPySpace).reverse

/-- Python `s.strip()`. -/
def pyStrip (s : String) : String := ⟨pyStripChars s.data⟩

/-- Python `s[:n]`. -/
def pyTake (n : Nat) (s : String) : String := ⟨s.data.take n⟩

/-- Python `sep.join(parts)`. -/
def pyJoin (sep : String) : List String → String
  | [] => ""
  | [x] => x
  | x :: xs => x ++ sep ++ pyJoin sep xs

/-- Python `s.rsplit(",", 1)` when a comma is present: the part before
the last comma paired with the part after it. -/
def rsplitComma (l : List Char) : List Char × List Char :=
  let rev := l.reverse
  (((rev.dropWhile (fun c => c != ',')).drop 1).reverse,
   (rev.takeWhile (fun c => c != ',')).reverse)

/-- The string has no leading whitespace character. -/
def noLeadSpaceL : List Char → Bool
  | [] => true
  | c :: _ => !isPySpace c

/-- The string has neither leading nor trailing whitespace. -/
def noEdgeSpace (s : String) : Bool :=
  noLeadSpaceL s.data && noLeadSpaceL s.data.reverse

/-- A markdown code fence, `"```".data`. -/
def ticks : List Char := ['`', '`', '`']

/-- The number of consecutive backticks at the start of the list. -/
def leadTicks : List Char → Nat
  | [] => 0
  | c :: cs => if c == '`' then leadTicks cs + 1 else 0

/-! ### The Natural-Language-to-SQL Translator (`get_sql_from_llm`) -/

/-- The outcome of the HTTP call to the reasoning service, as observed
by `get_sql_from_llm`: a successful response body, an HTTP error with a
status code and diagnostic text, or any other raised exception. -/
inductive LlmResponse where
  | success (content : String)
  | httpError (status : Nat) (detail : String)
  | failure (message : String)
deriving DecidableEq

/-- The distinct user-visible failure reports of `get_sql_from_llm`;
each one is followed by `st.stop()`, so the interaction is aborted and
no SQL string is returned. -/
inductive LlmFailure where
  | authFatal (message : String)
  | rateLimited (message : String)
  | upstream (message : String)
  | unexpected (message : String)
deriving DecidableEq

/-- The corrective credential message shown on HTTP 401. -/
def authMsg : String :=
  "Invalid API key. Please check OPENROUTER_API_KEY environment variable."

/-- The retry message shown on HTTP 429. -/
def rateMsg : String := "Rate limit exceeded. Please try again in a moment."

/-- Post-processing of the model's reply (`get_sql_from_llm`, response
path): `content.strip()`, then `.replace("```sql", "")`,
`.replace("```", "")`, `.strip()`. -/
def sanitize (content : String) : String :=
  pyStrip (pyRemove "```" (pyRemove "```sql" (pyStrip content)))

/-- `get_sql_from_llm`: on success return the sanitized SQL; on an
HTTP error branch on the status code (401 fatal auth, 429 rate limit,
otherwise generic upstream error); on any other exception report it as
unexpected.  Every error arm calls `st.error(...)` then `st.stop()`,
modelled as `Except.error`. -/
def get_sql_from_llm (resp : LlmResponse) : Except LlmFailure String :=
  match resp with
  | .success content => .ok (sanitize content)
  | .httpError status detail =>
    if status = 401 then .error (.authFatal authMsg)
    else if status = 429 then .error (.rateLimited rateMsg)
    else .error (.upstream ("API error (" ++ toString status ++ "): " ++ detail))
  | .failure m => .error (.unexpected ("Unexpected error: " ++ m))

/-! ### The pandas view of an executed result -/

/-- One column of a `pandas` DataFrame as `run_query` returns it: its
name, whether its dtype is numeric (what `select_dtypes(include=
['number'])` selects), and the per-row `isna()` flags. -/
structure PCol where
  name : String
  isNumber : Bool
  isna : List Bool
deriving DecidableEq

/-- A `pandas` DataFrame: the row count (`len(df)`) and the ordered
columns. -/
structure PFrame where
  nrows : Nat
  cols : List PCol
deriving DecidableEq

/-! ### The Query Executor (`run_query`) -/

/-- The SQLite store as `run_query` observes it: `sqlite3.connect` may
raise (carrying a message), and `pd.read_sql` either returns a frame or
raises with the store's diagnostic message. -/
structure DbStore where
  connectErr : Option String
  readSql : String → Except String PFrame

/-- What one invocation of `run_query` did: the returned pair
`(df, error)` plus whether a connection was successfully opened and
whether `conn.close()` was executed on it. -/
structure ExecOutcome where
  df : Option PFrame
  err : Option String
  opened : Bool
  closed : Bool
deriving DecidableEq

/-- `run_query`: `conn = sqlite3.connect(db_path)`,
`df = pd.read_sql(sql, conn)`, `conn.close()`, `return df, None`;
any exception is caught and returned as `(None, str(e))`.  There is no
`finally`, so `conn.close()` runs only when `pd.read_sql` succeeds. -/
def run_query (sql : String) (store : DbStore) : ExecOutcome :=
  match store.connectErr with
  | some e => ⟨none, some e, false, false⟩
  | none =>
    match store.readSql sql with
    | .ok df => ⟨some df, none, true, true⟩
    | .error e => ⟨none, some e, true, false⟩

/-! ### The Result Interpreter (classification in the main script) -/

/-- `is_empty = len(df) == 0`. -/
def is_empty (df : PFrame) : Bool := df.nrows == 0

/-- `df.select_dtypes(include=['number'])`. -/
def select_number_dtypes (df : PFrame) : List PCol :=
  df.cols.filter (fun c => c.isNumber)

/-- `is_null_aggregation = (len(df) == 1 and
df.select_dtypes(include=['number']).isna().all().all())`. -/
def is_null_aggregation (df : PFrame) : Bool :=
  df.nrows == 1 && (select_number_dtypes df).all (fun c => c.isna.all (fun b => b))

/-- The three states of the Result Interpreter. -/
inductive ResultState where
  | empty
  | degenerate
  | normal
deriving DecidableEq

/-- The classification implied by the main script's branch: the warning
path is taken when `is_empty or is_null_aggregation`, and within it a
zero-row result is the empty case and a one-row all-null-numeric result
the degenerate case; every other result is displayed normally. -/
def classify (df : PFrame) : ResultState :=
  if is_empty df then .empty
  else if is_null_aggregation df then .degenerate
  else .normal

/-- The branch condition `if is_empty or is_null_aggregation` routing a
result to the "No results found" diagnostic path. -/
def takes_no_results_path (df : PFrame) : Bool :=
  is_empty df || is_null_aggregation df

/-! ### The empty-result diagnostics (`analyze_empty_results`) -/

/-- The store as `analyze_empty_results` observes it:
`sqlite3.connect` may raise, and each of the two probe queries either
returns its rows or raises.  `sampleRisks` holds the first column of
`SELECT DISTINCT climate_risks FROM projects ... LIMIT 5`;
`topCountries` holds the rows of the country-frequency probe. -/
structure DiagStore where
  connectErr : Option String
  sampleRisks : Except String (List String)
  topCountries : Except String (List (String × Nat))

/-- First guidance message of the multi-value-LIKE branch. -/
def tipCaps : String :=
  "**Tip**: Multi-value fields use semicolon-separated lists. Make sure your search term matches the exact capitalization in the data."

/-- Second guidance message of the multi-value-LIKE branch. -/
def tipRisks : String :=
  "Common climate risks: Drought, Flooding, Extreme heat, Sea level rise, Wildfires, Heavy precipitation"

/-- Third guidance message of the multi-value-LIKE branch. -/
def tipThemes : String :=
  "Common themes: Governance, Infrastructure, Water management, Ecosystems and nature-based solutions"

/-- `f"Example climate risks in database: {sample_risks[0][0][:100]}..."`. -/
def exampleRisksMsg (firstRow : String) : String :=
  "Example climate risks in database: " ++ pyTake 100 firstRow ++ "..."

/-- `f"Top countries with participants: {country_list}"` where each
entry is rendered as `f"{c[0]} ({c[1]})"` and joined with `", "`. -/
def topCountriesMsg (rows : List (String × Nat)) : String :=
  "Top countries with participants: " ++
    pyJoin ", " (rows.map (fun p => p.1 ++ " (" ++ toString p.2 ++ ")"))

/-- The body of `analyze_empty_results` before its `except` clause,
with the store interactions explicit.  Note the conditions are exactly
the source's: `"FROM projects" in sql.upper()` and
`"FROM participants" in sql.upper()` compare mixed-case literals with
the uppercased SQL. -/
def analyzeEmptyResultsE (sql : String) (store : DiagStore) :
    Except String (List String) :=
  match store.connectErr with
  | some e => .error e
  | none =>
    let afterProjects : Except String (List String) :=
      if pyIn "FROM projects" (pyUpper sql) then
        let hints :=
          if pyIn "climate_risks LIKE" sql || pyIn "main_themes LIKE" sql ||
              pyIn "regions LIKE" sql then
            [tipCaps, tipRisks, tipThemes]
          else []
        match store.sampleRisks with
        | .error e => .error e
        | .ok [] => .ok hints
        | .ok (r :: _) => .ok (hints ++ [exampleRisksMsg r])
      else .ok []
    match afterProjects with
    | .error e => .error e
    | .ok acc =>
      if pyIn "FROM participants" (pyUpper sql) then
        match store.topCountries with
        | .error e => .error e
        | .ok [] => .ok acc
        | .ok (r :: rs) => .ok (acc ++ [topCountriesMsg (r :: rs)])
      else .ok acc

/-- `analyze_empty_results`: the single `try/except` around the whole
pass; on any exception the returned suggestion list is exactly
`[f"Unable to analyze query: {e}"]`. -/
def analyze_empty_results (sql : String) (store : DiagStore) : List String :=
  match analyzeEmptyResultsE sql store with
  | .ok s => s
  | .error e => ["Unable to analyze query: " ++ e]

/-! ### The Summary Generator (`generate_table_description`) -/

/-- The fallback caption `f"Table showing {len(df)} results for your
query."`. -/
def fallbackCaption (n : Nat) : String :=
  "Table showing " ++ toString n ++ " results for your query."

/-- `generate_table_description`: return the service's caption,
stripped; on any exception return the fallback caption built from the
row count alone. -/
def generate_table_description (question sql : String) (df : PFrame)
    (svc : Except String String) : String :=
  match question, sql, svc with
  | _, _, .ok content => pyStrip content
  | _, _, .error _ => fallbackCaption df.nrows

/-! ### The Ingestion Loader's coordinator parser (`parse_coordinator`) -/

/-- `parse_coordinator` from `load_data.py`: a missing value or a value
without a comma is returned unchanged with organization and country
unset; otherwise the value is split at its last comma, the organization
part is stripped and uppercased, and the country part is stripped. -/
def parse_coordinator (coord : Option String) :
    Option String × Option String × Option String :=
  match coord with
  | none => (none, none, none)
  | some s =>
    if pyIn "," s then
      let parts := rsplitComma s.data
      (some s, some (pyUpper (pyStrip ⟨parts.1⟩)), some (pyStrip ⟨parts.2⟩))
    else (some s, none, none)

/-! ### Concrete inputs used by witnesses and counterexamples -/

/-- A SQL text that references both tables, for the diagnostics claims. -/
def sqlBothTables : String :=
  "SELECT * FROM projects JOIN participants ON projects.coordinator_org = participants.legal_name"

/-- A SQL text with a multi-value LIKE predicate on the projects table. -/
def sqlProjectsLike : String :=
  "SELECT acronym FROM projects WHERE climate_risks LIKE '%Flooding%'"

/-- A healthy diagnostic store: connection succeeds and both probes
would return rows. -/
def diagStoreOk : DiagStore :=
  ⟨none, .ok ["Drought; Flooding; Extreme heat"], .ok [("Spain", 200), ("Italy", 150)]⟩

/-- A diagnostic store on which the climate-risks probe would raise
while the country probe would succeed. -/
def diagStoreRisksFail : DiagStore :=
  ⟨none, .error "disk I/O error", .ok [("Spain", 200)]⟩

/-- A diagnostic store on which opening the connection raises. -/
def diagStoreConnFail : DiagStore :=
  ⟨some "unable to open database file", .ok [], .ok []⟩

/-- A two-column result frame (one text column, one numeric column). -/
def frameTwoCols : PFrame :=
  ⟨2, [⟨"acronym", false, [false, false]⟩,
       ⟨"total_budget_euro", true, [false, false]⟩]⟩

/-- A zero-row result frame. -/
def frameEmpty : PFrame := ⟨0, [⟨"acronym", false, []⟩]⟩

/-- A one-row frame whose only column is textual and non-null. -/
def frameOneTextRow : PFrame := ⟨1, [⟨"acronym", false, [false]⟩]⟩

/-- A store whose query execution succeeds with `frameTwoCols`. -/
def dbStoreOk : DbStore := ⟨none, fun _ => .ok frameTwoCols⟩

/-- A store on which `pd.read_sql` raises after a successful connect. -/
def dbStoreReadFail : DbStore :=
  ⟨none, fun _ => .error "no such column: climate_risk"⟩

/-! ### Lemmas about the substring primitives -/

theorem mem_of_leadsWith {pat l : List Char} (h : leadsWith pat l = true) :
    ∀ a ∈ pat, a ∈ l := by
  induction pat generalizing l with
  | nil => intro a ha; cases ha
  | cons p ps ih =>
    match l with
    | [] => simp [leadsWith] at h
    | c :: cs =>
      simp only [leadsWith, Bool.and_eq_true, beq_iff_eq] at h
      intro a ha
      rcases List.mem_cons.mp ha with rfl | ha'
      · rw [h.1]; exact List.mem_cons_self _ _
      · exact List.mem_cons_of_mem _ (ih h.2 a ha')

theorem mem_of_containsSub {pat l : List Char} (h : containsSub pat l = true) :
    ∀ a ∈ pat, a ∈ l := by
  induction l with
  | nil =>
    simp only [containsSub] at h
    exact mem_of_leadsWith h
  | cons c cs ih =>
    simp only [containsSub, Bool.or_eq_true] at h
    rcases h with h | h
    · exact mem_of_leadsWith h
    · intro a ha
      exact List.mem_cons_of_mem _ (ih h a ha)

theorem containsSub_eq_false {pat l : List Char} (a : Char) (ha : a ∈ pat)
    (hl : ∀ x ∈ l, x ≠ a) : containsSub pat l = false := by
  by_contra h
  rw [Bool.not_eq_false] at h
  exact hl a (mem_of_containsSub h a ha) rfl

/-! ### Lemmas about uppercasing -/

theorem char_toNat_ofNat_of_lt {m : Nat} (h : m < 55296) :
    (Char.ofNat m).toNat = m := by
  unfold Char.ofNat
  rw [dif_pos (Or.inl h)]
  rfl

theorem upperChar_not_lower (c : Char) :
    ¬(97 ≤ (upperChar c).toNat ∧ (upperChar c).toNat ≤ 122) := by
  unfold upperChar
  split
  · next h =>
    rw [char_toNat_ofNat_of_lt (by omega)]
    omega
  · next h => exact h

theorem upperChar_ne (c a : Char) (h97 : 97 ≤ a.toNat) (h122 : a.toNat ≤ 122) :
    upperChar c ≠ a := by
  intro he
  apply upperChar_not_lower c
  rw [he]
  exact ⟨h97, h122⟩

theorem pyIn_pyUpper_eq_false (pat : String) (a : Char) (ha : a ∈ pat.data)
    (h97 : 97 ≤ a.toNat) (h122 : a.toNat ≤ 122) (s : String) :
    pyIn pat (pyUpper s) = false := by
  apply containsSub_eq_false a ha
  intro x hx
  rcases List.mem_map.mp hx with ⟨c, _, rfl⟩
  exact upperChar_ne c a h97 h122

/-- The table check of `analyze_empty_results` never fires: the probe
selector tests the mixed-case literal `"FROM projects"` against the
uppercased SQL, and an uppercased string has no lowercase letters. -/
theorem from_projects_not_in_upper (s : String) :
    pyIn "FROM projects" (pyUpper s) = false :=
  pyIn_pyUpper_eq_false _ 'p' (by decide) (by decide) (by decide) s

/-- Same as `from_projects_not_in_upper` for the participants check. -/
theorem from_participants_not_in_upper (s : String) :
    pyIn "FROM participants" (pyUpper s) = false :=
  pyIn_pyUpper_eq_false _ 'p' (by decide) (by decide) (by decide) s

/-! ### The observable behaviour of `analyze_empty_results` -/

/-- When the connection opens, the diagnostic pass emits no suggestion
at all, whatever the SQL and whatever the probes would return. -/
theorem analyze_connected_eq_nil (sql : String)
    (risks : Except String (List String))
    (tcs : Except String (List (String × Nat))) :
    analyze_empty_results sql ⟨none, risks, tcs⟩ = [] := by
  unfold analyze_empty_results analyzeEmptyResultsE
  simp [from_projects_not_in_upper, from_participants_not_in_upper]

/-- When opening the connection raises, the pass returns exactly the
single explanatory message. -/
theorem analyze_connect_failed (sql e : String)
    (risks : Except String (List String))
    (tcs : Except String (List (String × Nat))) :
    analyze_empty_results sql ⟨some e, risks, tcs⟩ =
      ["Unable to analyze query: " ++ e] := rfl

/-! ### Lemmas about fence removal -/

theorem removeAllChars_nil (pat : List Char) : removeAllChars pat [] = [] := by
  rw [removeAllChars.eq_def]

theorem removeAllChars_cons_pos {pat : List Char} {c : Char} {cs : List Char}
    (h : leadsWith pat (c :: cs) = true) :
    removeAllChars pat (c :: cs) = removeAllChars pat (cs.drop (pat.length - 1)) := by
  rw [removeAllChars.eq_def]
  simp [h]

theorem removeAllChars_cons_neg {pat : List Char} {c : Char} {cs : List Char}
    (h : ¬leadsWith pat (c :: cs) = true) :
    removeAllChars pat (c :: cs) = c :: removeAllChars pat cs := by
  rw [removeAllChars.eq_def]
  simp [h]

theorem leadsWith_ticks_shape {l : List Char} (h : leadsWith ticks l = true) :
    ∃ rest, l = '`' :: '`' :: '`' :: rest := by
  match l with
  | [] => exact absurd h (by decide)
  | [c1] => simp [ticks, leadsWith] at h
  | [c1, c2] => simp [ticks, leadsWith] at h
  | c1 :: c2 :: c3 :: rest =>
    simp only [ticks, leadsWith, Bool.and_eq_true, beq_iff_eq] at h
    obtain ⟨h1, h2, h3, -⟩ := h
    subst h1; subst h2; subst h3
    exact ⟨rest, rfl⟩

theorem leadTicks_two_shape {l : List Char} (h : 2 ≤ leadTicks l) :
    ∃ rest, l = '`' :: '`' :: rest := by
  match l with
  | [] => simp [leadTicks] at h
  | [c1] =>
    simp only [leadTicks] at h
    split at h <;> omega
  | c1 :: c2 :: rest =>
    simp only [leadTicks] at h
    split at h
    · next hc1 =>
      split at h
      · next hc2 =>
        rw [beq_iff_eq] at hc1 hc2
        subst hc1; subst hc2
        exact ⟨rest, rfl⟩
      · omega
    · omega

theorem removeAll_ticks_spec (n : Nat) :
    ∀ l : List Char, l.length ≤ n →
      containsSub ticks (removeAllChars ticks l) = false ∧
      leadTicks (removeAllChars ticks l) ≤ leadTicks l ∧
      leadTicks (removeAllChars ticks l) ≤ 2 := by
  induction n with
  | zero =>
    intro l hl
    have hnil : l = [] := List.eq_nil_of_length_eq_zero (Nat.le_zero.mp hl)
    subst hnil
    rw [removeAllChars_nil]
    decide
  | succ n ih =>
    intro l hl
    match l with
    | [] =>
      rw [removeAllChars_nil]
      decide
    | c :: cs =>
      by_cases hm : leadsWith ticks (c :: cs) = true
      · obtain ⟨rest, hshape⟩ := leadsWith_ticks_shape hm
        simp only [List.cons.injEq] at hshape
        obtain ⟨hc, hcs⟩ := hshape
        subst hc; subst hcs
        rw [removeAllChars_cons_pos hm]
        have hdrop : (('`' :: '`' :: rest).drop (ticks.length - 1)) = rest := rfl
        rw [hdrop]
        have hlen : rest.length ≤ n := by
          simp only [List.length_cons] at hl
          omega
        obtain ⟨ih1, ih2, ih3⟩ := ih rest hlen
        refine ⟨ih1, ?_, ih3⟩
        simp only [leadTicks, beq_self_eq_true, if_true]
        omega
      · rw [removeAllChars_cons_neg hm]
        have hlen : cs.length ≤ n := by
          simp only [List.length_cons] at hl
          omega
        obtain ⟨ih1, ih2, ih3⟩ := ih cs hlen
        by_cases hc : c = '`'
        · subst hc
          have hcs1 : leadTicks cs ≤ 1 := by
            by_contra hgt
            have h2 : 2 ≤ leadTicks cs := by omega
            obtain ⟨rest, hrest⟩ := leadTicks_two_shape h2
            subst hrest
            exact hm (by simp [ticks, leadsWith])
          have hR1 : leadTicks (removeAllChars ticks cs) ≤ 1 := le_trans ih2 hcs1
          have hlw : leadsWith ticks ('`' :: removeAllChars ticks cs) = false := by
            by_contra hlw'
            rw [Bool.not_eq_false] at hlw'
            obtain ⟨rest, hrest⟩ := leadsWith_ticks_shape hlw'
            simp only [List.cons.injEq] at hrest
            obtain ⟨-, hrest2⟩ := hrest
            rw [hrest2] at hR1
            simp [leadTicks] at hR1
          refine ⟨?_, ?_, ?_⟩
          · simp only [containsSub, hlw, ih1, Bool.or_false]
          · simp only [leadTicks, beq_self_eq_true, if_true]
            omega
          · simp only [leadTicks, beq_self_eq_true, if_true]
            omega
        · have hbeq : (c == '`') = false := by
            rw [beq_eq_false_iff_ne]
            exact hc
          have hlw : leadsWith ticks (c :: removeAllChars ticks cs) = false := by
            simp only [ticks, leadsWith]
            have : ('`' == c) = false := by
              rw [beq_eq_false_iff_ne]
              exact fun he => hc he.symm
            simp [this]
          refine ⟨?_, ?_, ?_⟩
          · simp only [containsSub, hlw, ih1, Bool.or_false]
          · simp [leadTicks, hbeq]
          · simp [leadTicks, hbeq]

theorem removeAll_ticks_no_fence (l : List Char) :
    containsSub ticks (removeAllChars ticks l) = false :=
  (removeAll_ticks_spec l.length l le_rfl).1

/-! ### Lemmas about stripping -/

theorem containsSub_nil_pat (t : List Char) : containsSub [] t = true := by
  match t with
  | [] => decide
  | c :: cs => simp [containsSub, leadsWith]

theorem leadsWith_append {pat l t : List Char} (h : leadsWith pat l = true) :
    leadsWith pat (l ++ t) = true := by
  induction pat generalizing l with
  | nil => simp [leadsWith]
  | cons p ps ih =>
    match l with
    | [] => simp [leadsWith] at h
    | c :: cs =>
      simp only [List.cons_append, leadsWith, Bool.and_eq_true] at h ⊢
      exact ⟨h.1, ih h.2⟩

theorem containsSub_cons {pat : List Char} (c : Char) {cs : List Char}
    (h : containsSub pat cs = true) : containsSub pat (c :: cs) = true := by
  simp [containsSub, h]

theorem containsSub_append_left {pat l t : List Char}
    (h : containsSub pat l = true) : containsSub pat (l ++ t) = true := by
  induction l with
  | nil =>
    rw [List.nil_append]
    match pat with
    | [] => exact containsSub_nil_pat t
    | p :: ps => simp [containsSub, leadsWith] at h
  | cons c cs ih =>
    simp only [containsSub, Bool.or_eq_true] at h
    simp only [List.cons_append, containsSub, Bool.or_eq_true]
    rcases h with h | h
    · exact Or.inl (leadsWith_append h)
    · exact Or.inr (ih h)

theorem containsSub_suffix {pat t : List Char} (l : List Char)
    (h : containsSub pat t = true) : containsSub pat (l ++ t) = true := by
  induction l with
  | nil => exact h
  | cons c cs ih =>
    rw [List.cons_append]
    exact containsSub_cons c ih

theorem containsSub_pyStripChars {pat l : List Char}
    (h : containsSub pat (pyStripChars l) = true) : containsSub pat l = true := by
  unfold pyStripChars at h
  have h1 : containsSub pat (l.dropWhile isPySpace) = true := by
    have hsplit := List.takeWhile_append_dropWhile isPySpace (l.dropWhile isPySpace).reverse
    have hf : l.dropWhile isPySpace =
        ((l.dropWhile isPySpace).reverse.dropWhile isPySpace).reverse ++
          ((l.dropWhile isPySpace).reverse.takeWhile isPySpace).reverse := by
      rw [← List.reverse_append, hsplit, List.reverse_reverse]
    rw [hf]
    exact containsSub_append_left h
  have hsplit2 := List.takeWhile_append_dropWhile isPySpace l
  rw [← hsplit2]
  exact containsSub_suffix _ h1

theorem noLeadSpaceL_dropWhile (l : List Char) :
    noLeadSpaceL (l.dropWhile isPySpace) = true := by
  induction l with
  | nil => decide
  | cons c cs ih =>
    by_cases h : isPySpace c
    · rw [List.dropWhile_cons_of_pos h]
      exact ih
    · rw [List.dropWhile_cons_of_neg h]
      simp only [noLeadSpaceL, Bool.not_eq_true']
      simpa using h

theorem noLeadSpaceL_pyStripChars (l : List Char) :
    noLeadSpaceL (pyStripChars l) = true := by
  unfold pyStripChars
  have hnl : noLeadSpaceL (l.dropWhile isPySpace) = true := noLeadSpaceL_dropWhile l
  have hsplit := List.takeWhile_append_dropWhile isPySpace (l.dropWhile isPySpace).reverse
  have hf : l.dropWhile isPySpace =
      ((l.dropWhile isPySpace).reverse.dropWhile isPySpace).reverse ++
        ((l.dropWhile isPySpace).reverse.takeWhile isPySpace).reverse := by
    rw [← List.reverse_append, hsplit, List.reverse_reverse]
  cases hr : ((l.dropWhile isPySpace).reverse.dropWhile isPySpace).reverse with
  | nil => decide
  | cons c t =>
    rw [hr] at hf
    rw [hf] at hnl
    simp only [List.cons_append, noLeadSpaceL] at hnl
    simp only [noLeadSpaceL]
    exact hnl

theorem noTrailSpace_pyStripChars (l : List Char) :
    noLeadSpaceL (pyStripChars l).reverse = true := by
  unfold pyStripChars
  rw [List.reverse_reverse]
  exact noLeadSpaceL_dropWhile _

/-! ### Behaviour of `sanitize` -/

theorem sanitize_data (content : String) :
    (sanitize content).data =
      pyStripChars (removeAllChars ticks
        (removeAllChars "```sql".data (pyStripChars content.data))) := rfl

theorem sanitize_no_fence (content : String) :
    pyIn "```" (sanitize content) = false := by
  unfold pyIn
  rw [sanitize_data]
  have hticks : ("```" : String).data = ticks := rfl
  rw [hticks]
  by_contra h
  rw [Bool.not_eq_false] at h
  have h2 := containsSub_pyStripChars h
  rw [removeAll_ticks_no_fence] at h2
  exact Bool.false_ne_true h2

theorem sanitize_no_edge_space (content : String) :
    noEdgeSpace (sanitize content) = true := by
  unfold noEdgeSpace
  rw [sanitize_data]
  rw [noLeadSpaceL_pyStripChars, noTrailSpace_pyStripChars]
  rfl

/-! ### Lemmas about `rsplitComma` -/

theorem dropWhile_ne_nil_of_mem {p : Char → Bool} {l : List Char} {a : Char}
    (hmem : a ∈ l) (hpa : p a = false) : l.dropWhile p ≠ [] := by
  induction l with
  | nil => cases hmem
  | cons c cs ih =>
    rw [List.dropWhile_cons]
    split
    · next hc =>
      rcases List.mem_cons.mp hmem with rfl | hmem'
      · rw [hpa] at hc
        exact absurd hc (by decide)
      · exact ih hmem'
    · simp

theorem head_dropWhile_eq_false {p : Char → Bool} {l : List Char} {c : Char}
    {t : List Char} (h : l.dropWhile p = c :: t) : p c = false := by
  induction l with
  | nil => simp at h
  | cons a l' ih =>
    rw [List.dropWhile_cons] at h
    split at h
    · exact ih h
    · next ha =>
      injection h with h1 h2
      subst h1
      cases hb : p a with
      | false => rfl
      | true => exact absurd hb ha

theorem rsplitComma_spec (s : String) (h : pyIn "," s = true) :
    ∃ before after, s.data = before ++ ',' :: after ∧
      (∀ x ∈ after, x ≠ ',') ∧ rsplitComma s.data = (before, after) := by
  have hmem : ',' ∈ s.data := mem_of_containsSub h ',' (by decide)
  have hrev : ',' ∈ s.data.reverse := List.mem_reverse.mpr hmem
  have hpa : (fun c => c != ',') ',' = false := by decide
  have hne : s.data.reverse.dropWhile (fun c => c != ',') ≠ [] :=
    dropWhile_ne_nil_of_mem hrev hpa
  obtain ⟨c, ds, hds⟩ := List.exists_cons_of_ne_nil hne
  have hc : c = ',' := by
    have hcf := head_dropWhile_eq_false hds
    simpa using hcf
  subst hc
  have hsplit := List.takeWhile_append_dropWhile (fun c => c != ',') s.data.reverse
  rw [hds] at hsplit
  refine ⟨ds.reverse, (s.data.reverse.takeWhile (fun c => c != ',')).reverse,
    ?_, ?_, ?_⟩
  · conv_lhs => rw [← List.reverse_reverse s.data, ← hsplit]
    rw [List.reverse_append]
    simp
  · intro x hx
    have hx' : x ∈ s.data.reverse.takeWhile (fun c => c != ',') :=
      List.mem_reverse.mp hx
    have hpx := List.mem_takeWhile_imp hx'
    simpa using hpx
  · simp only [rsplitComma]
    rw [hds]
    simp

/-! ### Lemmas about the Result Interpreter -/

theorem is_empty_iff (df : PFrame) : is_empty df = true ↔ df.nrows = 0 := by
  simp [is_empty]

theorem is_null_aggregation_iff (df : PFrame) :
    is_null_aggregation df = true ↔
      (df.nrows = 1 ∧
        ∀ c ∈ df.cols, c.isNumber = true → ∀ b ∈ c.isna, b = true) := by
  unfold is_null_aggregation select_number_dtypes
  rw [Bool.and_eq_true, beq_iff_eq, List.all_eq_true]
  constructor
  · rintro ⟨h1, h2⟩
    refine ⟨h1, fun c hc hnum b hb => ?_⟩
    have hall := h2 c (List.mem_filter.mpr ⟨hc, hnum⟩)
    rw [List.all_eq_true] at hall
    exact hall b hb
  · rintro ⟨h1, h2⟩
    refine ⟨h1, fun c hc => ?_⟩
    rw [List.all_eq_true]
    obtain ⟨hcm, hnum⟩ := List.mem_filter.mp hc
    exact h2 c hcm hnum

theorem classify_empty_iff (df : PFrame) :
    classify df = .empty ↔ df.nrows = 0 := by
  unfold classify
  by_cases h1 : is_empty df
  · rw [if_pos h1]
    exact ⟨fun _ => (is_empty_iff df).mp h1, fun _ => rfl⟩
  · rw [if_neg h1]
    constructor
    · intro hcl
      by_cases h2 : is_null_aggregation df
      · rw [if_pos h2] at hcl
        exact absurd hcl (by decide)
      · rw [if_neg h2] at hcl
        exact absurd hcl (by decide)
    · intro h0
      exact absurd ((is_empty_iff df).mpr h0) h1

theorem classify_degenerate_iff (df : PFrame) :
    classify df = .degenerate ↔
      (df.nrows = 1 ∧
        ∀ c ∈ df.cols, c.isNumber = true → ∀ b ∈ c.isna, b = true) := by
  unfold classify
  by_cases h1 : is_empty df
  · rw [if_pos h1]
    constructor
    · intro hcl
      exact absurd hcl (by decide)
    · rintro ⟨hn, -⟩
      have h0 := (is_empty_iff df).mp h1
      omega
  · rw [if_neg h1]
    by_cases h2 : is_null_aggregation df
    · rw [if_pos h2]
      constructor
      · intro _
        exact (is_null_aggregation_iff df).mp h2
      · intro _
        rfl
    · rw [if_neg h2]
      constructor
      · intro hcl
        exact absurd hcl (by decide)
      · intro hr
        exact absurd ((is_null_aggregation_iff df).mpr hr) h2

theorem classify_normal_iff (df : PFrame) :
    classify df = .normal ↔
      (1 ≤ df.nrows ∧
        ¬(df.nrows = 1 ∧
          ∀ c ∈ df.cols, c.isNumber = true → ∀ b ∈ c.isna, b = true)) := by
  unfold classify
  by_cases h1 : is_empty df
  · rw [if_pos h1]
    have h0 := (is_empty_iff df).mp h1
    constructor
    · intro hcl
      exact absurd hcl (by decide)
    · rintro ⟨hge, -⟩
      omega
  · rw [if_neg h1]
    have h0 : ¬df.nrows = 0 := fun h => h1 ((is_empty_iff df).mpr h)
    by_cases h2 : is_null_aggregation df
    · rw [if_pos h2]
      constructor
      · intro hcl
        exact absurd hcl (by decide)
      · rintro ⟨-, hnot⟩
        exact absurd ((is_null_aggregation_iff df).mp h2) hnot
    · rw [if_neg h2]
      constructor
      · intro _
        refine ⟨by omega, fun hr => ?_⟩
        exact absurd ((is_null_aggregation_iff df).mpr hr) h2
      · intro _
        rfl

theorem takes_path_iff (df : PFrame) :
    takes_no_results_path df = true ↔
      (classify df = .empty ∨ classify df = .degenerate) := by
  unfold takes_no_results_path classify
  by_cases h1 : is_empty df
  · rw [if_pos h1, h1]
    simp
  · rw [if_neg h1]
    have h1f : is_empty df = false := by
      cases hb : is_empty df with
      | false => rfl
      | true => exact absurd hb h1
    rw [h1f]
    by_cases h2 : is_null_aggregation df
    · rw [if_pos h2, h2]
      simp
    · have h2f : is_null_aggregation df = false := by
        cases hb : is_null_aggregation df with
        | false => rfl
        | true => exact absurd hb h2
      rw [if_neg h2, h2f]
      simp

/-! ### The claims -/

/-- Claim C1: the Result Interpreter classifies every executed result
into exactly one of three states — Empty exactly when the result has
zero rows; Degenerate aggregate exactly when it has exactly one row and
every numeric-typed cell in that row is null; Normal exactly for any
other result (at least one row and not degenerate) — and the no-results
branch is taken exactly in the first two states. -/
theorem C1_result_classification (df : PFrame) :
    (classify df = .empty ↔ df.nrows = 0) ∧
    (classify df = .degenerate ↔
      (df.nrows = 1 ∧
        ∀ c ∈ df.cols, c.isNumber = true → ∀ b ∈ c.isna, b = true)) ∧
    (classify df = .normal ↔
      (1 ≤ df.nrows ∧
        ¬(df.nrows = 1 ∧
          ∀ c ∈ df.cols, c.isNumber = true → ∀ b ∈ c.isna, b = true))) ∧
    (takes_no_results_path df = true ↔
      (classify df = .empty ∨ classify df = .degenerate)) :=
  ⟨classify_empty_iff df, classify_degenerate_iff df, classify_normal_iff df,
    takes_path_iff df⟩

/-- Witness for C1 at a concrete zero-row frame. -/
theorem C1_result_classification_witness : classify frameEmpty = .empty :=
  (C1_result_classification frameEmpty).1.mpr rfl

/-- Claim C2 is refuted by the code (code bug): the probe selector of
`analyze_empty_results` tests the mixed-case literals `"FROM projects"`
and `"FROM participants"` against `sql.upper()`, which can never match,
so neither the case-sensitivity guidance nor the stored-value or
country-frequency probes are ever emitted: whenever the connection
opens, the pass returns an empty suggestion list for every SQL string
and every store content. -/
theorem C2_probes_never_selected (sql : String)
    (risks : Except String (List String))
    (tcs : Except String (List (String × Nat))) :
    analyze_empty_results sql ⟨none, risks, tcs⟩ = [] :=
  analyze_connected_eq_nil sql risks tcs

/-- Claim C3 is false at this concrete input: `sqlBothTables` references
both tables and `diagStoreRisksFail` would make the climate-risks probe
raise while the country probe would succeed, yet the pass emits neither
an explanatory message for the failed probe nor the surviving probe's
output — it returns no suggestions at all. -/
theorem C3_probe_independence_cex :
    analyze_empty_results sqlBothTables diagStoreRisksFail = [] ∧
    diagStoreRisksFail.sampleRisks = Except.error "disk I/O error" ∧
    diagStoreRisksFail.topCountries = Except.ok [("Spain", 200)] :=
  ⟨analyze_connected_eq_nil _ _ _, rfl, rfl⟩

/-- Claim C3 amended: the diagnostic pass is best-effort only as a
whole — any exception inside it is caught and the pass returns the
single message `"Unable to analyze query: <e>"` in place of all
suggestions, never propagating the exception; and since the
table-reference checks never match, no probe ever runs, so a successful
connection always yields an empty suggestion list. -/
theorem C3_whole_pass_best_effort (sql : String)
    (risks : Except String (List String))
    (tcs : Except String (List (String × Nat))) :
    analyze_empty_results sql ⟨none, risks, tcs⟩ = [] ∧
    (∀ e, analyze_empty_results sql ⟨some e, risks, tcs⟩ =
      ["Unable to analyze query: " ++ e]) :=
  ⟨analyze_connected_eq_nil sql risks tcs,
   fun e => analyze_connect_failed sql e risks tcs⟩

/-- Claim C4: for every successful response text, the Translator's
post-processing strips the wrapping markup: the returned SQL is the
sanitized content, contains no ``` fence anywhere, and has neither a
leading nor a trailing whitespace character. -/
theorem C4_sanitized_output (content : String) :
    get_sql_from_llm (.success content) = .ok (sanitize content) ∧
    pyIn "```" (sanitize content) = false ∧
    noEdgeSpace (sanitize content) = true :=
  ⟨rfl, sanitize_no_fence content, sanitize_no_edge_space content⟩

/-- Claim C5: the Translator reports the three upstream failure modes
distinctly — HTTP 401 as the fatal credential failure with its
corrective instruction, HTTP 429 as the transient rate limit with a
retry message, any other HTTP failure with the available status and
detail, and any other exception as unexpected — and in every
non-success case it returns an error (no SQL string) and the
interaction is aborted. -/
theorem C5_failure_modes (status : Nat) (detail m : String) :
    get_sql_from_llm (.httpError 401 detail) = .error (.authFatal authMsg) ∧
    get_sql_from_llm (.httpError 429 detail) = .error (.rateLimited rateMsg) ∧
    (status ≠ 401 → status ≠ 429 →
      get_sql_from_llm (.httpError status detail) =
        .error (.upstream
          ("API error (" ++ toString status ++ "): " ++ detail))) ∧
    get_sql_from_llm (.failure m) =
      .error (.unexpected ("Unexpected error: " ++ m)) ∧
    (∀ resp : LlmResponse, (∀ c, resp ≠ .success c) →
      ∃ f, get_sql_from_llm resp = .error f) := by
  refine ⟨rfl, rfl, ?_, rfl, ?_⟩
  · intro h1 h2
    simp only [get_sql_from_llm]
    rw [if_neg h1, if_neg h2]
  · intro resp hresp
    match resp with
    | .success c => exact absurd rfl (hresp c)
    | .httpError st d =>
      simp only [get_sql_from_llm]
      by_cases h1 : st = 401
      · rw [if_pos h1]; exact ⟨_, rfl⟩
      · rw [if_neg h1]
        by_cases h2 : st = 429
        · rw [if_pos h2]; exact ⟨_, rfl⟩
        · rw [if_neg h2]; exact ⟨_, rfl⟩
    | .failure m2 => exact ⟨_, rfl⟩

/-- Witness for C5 at HTTP status 500. -/
theorem C5_failure_modes_witness :
    get_sql_from_llm (.httpError 500 "Internal Server Error") =
      .error (.upstream
        ("API error (" ++ toString 500 ++ "): " ++ "Internal Server Error")) :=
  (C5_failure_modes 500 "Internal Server Error" "").2.2.1
    (by decide) (by decide)

/-- Claim C6: `run_query` returns exactly one of a tabular result or an
error — the frame exactly as the store produced it (column order
included) or the store's diagnostic message verbatim — and never
propagates an exception (it is a total function of the store outcome). -/
theorem C6_result_or_error (sql : String) (store : DbStore) :
    ((run_query sql store).df.isSome = !(run_query sql store).err.isSome) ∧
    (∀ t, store.connectErr = none → store.readSql sql = .ok t →
      (run_query sql store).df = some t ∧ (run_query sql store).err = none) ∧
    (∀ e, store.connectErr = none → store.readSql sql = .error e →
      (run_query sql store).df = none ∧
        (run_query sql store).err = some e) ∧
    (∀ e, store.connectErr = some e →
      (run_query sql store).df = none ∧
        (run_query sql store).err = some e) := by
  unfold run_query
  refine ⟨?_, ?_, ?_, ?_⟩
  · cases hce : store.connectErr with
    | some e => rfl
    | none =>
      cases hrs : store.readSql sql with
      | ok t => rfl
      | error e => rfl
  · intro t hce hrs
    rw [hce, hrs]
    exact ⟨rfl, rfl⟩
  · intro e hce hrs
    rw [hce, hrs]
    exact ⟨rfl, rfl⟩
  · intro e hce
    rw [hce]
    exact ⟨rfl, rfl⟩

/-- Witness for C6 on a store whose read succeeds. -/
theorem C6_result_or_error_witness :
    (run_query "SELECT acronym FROM projects" dbStoreOk).df =
      some frameTwoCols ∧
    (run_query "SELECT acronym FROM projects" dbStoreOk).err = none :=
  (C6_result_or_error "SELECT acronym FROM projects" dbStoreOk).2.1
    frameTwoCols rfl rfl

/-- Claim C7 is false at this concrete input: with a store whose
connection opens but whose query execution raises, `run_query` returns
from its error path with the connection opened and never closed. -/
theorem C7_connection_not_released_cex :
    (run_query "SELECT climate_risk FROM projects" dbStoreReadFail).opened
      = true ∧
    (run_query "SELECT climate_risk FROM projects" dbStoreReadFail).closed
      = false :=
  ⟨rfl, rfl⟩

/-- Claim C7 amended: the store connection is released before return on
the success path only; on the error path where query execution raises
after the connection opened, `run_query` returns with the connection
still open (there is no `finally` to close it). -/
theorem C7_release_only_on_success (sql : String) (store : DbStore) :
    ((run_query sql store).err = none →
      (run_query sql store).opened = true ∧
        (run_query sql store).closed = true) ∧
    (∀ e, store.connectErr = none → store.readSql sql = .error e →
      (run_query sql store).opened = true ∧
        (run_query sql store).closed = false) := by
  unfold run_query
  constructor
  · intro herr
    cases hce : store.connectErr with
    | some e =>
      rw [hce] at herr
      exact Option.noConfusion herr
    | none =>
      rw [hce] at herr
      cases hrs : store.readSql sql with
      | ok t => exact ⟨rfl, rfl⟩
      | error e =>
        rw [hrs] at herr
        exact Option.noConfusion herr
  · intro e hce hrs
    rw [hce, hrs]
    exact ⟨rfl, rfl⟩

/-- Witness for C7's amended claim at the success-path store. -/
theorem C7_release_only_on_success_witness :
    (run_query "SELECT acronym FROM projects" dbStoreOk).opened = true ∧
    (run_query "SELECT acronym FROM projects" dbStoreOk).closed = true :=
  (C7_release_only_on_success "SELECT acronym FROM projects" dbStoreOk).1 rfl

/-- Claim C8: the Summary Generator returns the service's caption
(stripped) when the call succeeds and otherwise the deterministic
fallback caption derived only from the row count; it is a total
function of the call outcome (a summarization failure never raises),
so it cannot block display of the table. -/
theorem C8_summary_fallback (question sql : String) (df : PFrame)
    (e content : String) :
    generate_table_description question sql df (.error e) =
      fallbackCaption df.nrows ∧
    generate_table_description question sql df (.ok content) =
      pyStrip content ∧
    (∀ q2 s2 (df2 : PFrame) e2, df2.nrows = df.nrows →
      generate_table_description q2 s2 df2 (.error e2) =
        generate_table_description question sql df (.error e)) := by
  refine ⟨rfl, rfl, ?_⟩
  intro q2 s2 df2 e2 hn
  show fallbackCaption df2.nrows = fallbackCaption df.nrows
  rw [hn]

/-- Witness for C8's row-count-only dependence of the fallback. -/
theorem C8_summary_fallback_witness :
    generate_table_description "q2" "s2" frameOneTextRow (.error "timeout") =
      generate_table_description "q1" "s1" ⟨1, []⟩ (.error "boom") :=
  (C8_summary_fallback "q1" "s1" ⟨1, []⟩ "boom" "cap").2.2
    "q2" "s2" frameOneTextRow "timeout" rfl

/-- Claim C9: `parse_coordinator` always preserves the original text;
with a missing value or no comma it leaves organization and country
unset; with a comma it splits at the last comma into a stripped,
uppercased organization (no ASCII lowercase letter remains in it) and a
stripped country. -/
theorem C9_parse_coordinator (coord : Option String) :
    (coord = none → parse_coordinator coord = (none, none, none)) ∧
    (∀ s, coord = some s → pyIn "," s = false →
      parse_coordinator coord = (some s, none, none)) ∧
    (∀ s, coord = some s → pyIn "," s = true →
      ∃ before after, s.data = before ++ ',' :: after ∧
        (∀ x ∈ after, x ≠ ',') ∧
        parse_coordinator coord =
          (some s, some (pyUpper (pyStrip ⟨before⟩)),
            some (pyStrip ⟨after⟩)) ∧
        (∀ c ∈ (pyUpper (pyStrip ⟨before⟩)).data,
          ¬(97 ≤ c.toNat ∧ c.toNat ≤ 122))) := by
  refine ⟨?_, ?_, ?_⟩
  · rintro rfl
    rfl
  · rintro s rfl hnc
    simp [parse_coordinator, hnc]
  · rintro s rfl hc
    obtain ⟨before, after, hsd, hafter, hsplit⟩ := rsplitComma_spec s hc
    refine ⟨before, after, hsd, hafter, ?_, ?_⟩
    · have hred : parse_coordinator (some s) =
          (some s, some (pyUpper (pyStrip ⟨(rsplitComma s.data).1⟩)),
            some (pyStrip ⟨(rsplitComma s.data).2⟩)) := by
        simp [parse_coordinator, hc]
      rw [hred, hsplit]
    · intro c hcm
      rcases List.mem_map.mp hcm with ⟨a, -, rfl⟩
      exact upperChar_not_lower a

/-- Witness for C9 at a concrete coordinator value with a comma. -/
theorem C9_parse_coordinator_witness :
    ∃ before after,
      ("Acme Corp, Spain" : String).data = before ++ ',' :: after ∧
      (∀ x ∈ after, x ≠ ',') ∧
      parse_coordinator (some "Acme Corp, Spain") =
        (some "Acme Corp, Spain", some (pyUpper (pyStrip ⟨before⟩)),
          some (pyStrip ⟨after⟩)) ∧
      (∀ c ∈ (pyUpper (pyStrip ⟨before⟩)).data,
        ¬(97 ≤ c.toNat ∧ c.toNat ≤ 122)) :=
  (C9_parse_coordinator (some "Acme Corp, Spain")).2.2
    "Acme Corp, Spain" rfl (by decide)

/-- Claim C10: a one-row result with no numeric-typed column at all is
vacuously classified as a degenerate aggregate, so a one-row purely
textual result is routed to the no-results diagnostic path instead of
being displayed as a normal table. -/
theorem C10_vacuous_degenerate (df : PFrame) (h1 : df.nrows = 1)
    (h2 : ∀ c ∈ df.cols, c.isNumber = false) :
    classify df = .degenerate ∧ takes_no_results_path df = true := by
  have hdeg : classify df = .degenerate := by
    refine (classify_degenerate_iff df).mpr ⟨h1, fun c hc hnum => ?_⟩
    rw [h2 c hc] at hnum
    exact absurd hnum (by decide)
  exact ⟨hdeg, (takes_path_iff df).mpr (Or.inr hdeg)⟩

/-- Witness for C10: a one-row, single-text-column, non-null frame. -/
theorem C10_vacuous_degenerate_witness :
    classify frameOneTextRow = .degenerate ∧
    takes_no_results_path frameOneTextRow = true :=
  C10_vacuous_degenerate frameOneTextRow rfl (by decide)

end AdaptQuery
